import Mathlib

/-!
Shallow embedding of the nameko-devex order/stock protocol.

The embedding covers the code that the order-acceptance consistency protocol
runs through:

* `products/products/service.py` — the catalog service: `create`, the
  `order_created` event handler `handle_order_created`, and the storage
  dependency's `decrement_stock` (the dependency module itself is not among
  the given sources, so `decrement_stock` is modelled from the spec, §4.3).
* `orders/orders/service.py` — the order ledger: `create_order` (commit and
  publish) and `get_order`.
* `gateway/gateway/service.py` — the nameko aggregator: `_create_order`
  (snapshot read, per-item validation loop, delegation to the order service).
* `gateapi/gateapi/api/routers/order.py` — the FastAPI aggregator's
  `_create_order`, embedded independently so the two validators can be
  compared.

Python dicts and sets are embedded as association lists built by the same
left folds the source performs (a later insertion shadows an earlier one,
matching dict assignment); exceptions become `Except`; the mutable database
and the event dispatcher become explicit state threaded through the
functions, with published events recorded in a trace.
-/

namespace NamekoDevex

/-- Results of fallible calls can be compared for equality whenever the
error and value types can. -/
instance {ε α : Type} [DecidableEq ε] [DecidableEq α] : DecidableEq (Except ε α)
  | .ok a, .ok b => decidable_of_iff (a = b) (by simp)
  | .ok _, .error _ => .isFalse (by simp)
  | .error _, .ok _ => .isFalse (by simp)
  | .error a, .error b => decidable_of_iff (a = b) (by simp)

/-- One order line item as carried in `order_details`: `product_id`,
`quantity` and the caller-supplied `price` (kept verbatim as an opaque
string; the protocol never derives it from the catalog). -/
structure OrderDetail where
  product_id : String
  quantity : Nat
  price : String
deriving DecidableEq

/-- A catalog product, restricted to the fields the protocol reads:
the stable external key `id` and the stock count `in_stock`. Stock is
an integer so that the non-negativity invariant is a real statement. -/
structure Product where
  id : String
  in_stock : Int
deriving DecidableEq

/-- A committed order: the ledger-assigned `id` and its ordered details. -/
structure Order where
  id : Nat
  order_details : List OrderDetail
deriving DecidableEq

/-- The `order_created` event payload dispatched by the orders service:
`{'order': order}` where `order` is the full serialized order. -/
structure Notification where
  order : Order
deriving DecidableEq

/-! ## Products service storage

`products/dependencies.py` is not among the given sources; the storage is a
list of products, with `get`/`create` as the service code uses them and
`decrement_stock` modelled from the spec. -/

/-- The products storage: the collection of catalog products. -/
abbrev Storage := List Product

/-- `storage.get(product_id)`: the product with the given id, `none` when the
lookup raises `NotFound`. -/
def Storage.get (s : Storage) (product_id : String) : Option Product :=
  s.find? (fun p => p.id == product_id)

/-- `storage.create(product)`: inserts a new product into the storage. -/
def Storage.createProduct (s : Storage) (p : Product) : Storage :=
  s ++ [p]

/-- Modelled from the spec: `storage.decrement_stock(product_id, quantity)`
lives in `products/dependencies.py`, which is not among the given sources;
§4.3 gives its contract — "Applies `stock = max(stock - quantity, 0)`; never
throws for insufficient stock". The named product's stock is clamped at
zero; every other product is untouched. -/
def Storage.decrement_stock (s : Storage) (product_id : String) (quantity : Nat) : Storage :=
  s.map (fun p =>
    if p.id = product_id then { p with in_stock := max (p.in_stock - (quantity : Int)) 0 } else p)

/-! ## Products service (`products/products/service.py`) -/

/-- Domain exceptions raised by the products service. -/
inductive ProductsError where
  | productExists (message : String)
  | notFound (message : String)
deriving DecidableEq

/-- `ProductsService.create`: looks the id up first; a found product raises
`ProductExists` before any write, and the write happens only in the
`except NotFound` branch. -/
def ProductsService.create (s : Storage) (product : Product) : Except ProductsError Storage :=
  match Storage.get s product.id with
  | some _ => .error (.productExists "Product with this ID already exists")
  | none => .ok (Storage.createProduct s product)

/-- `ProductsService.handle_order_created`: the `order_created` consumer
decrements stock once per detail of the payload, in payload order. -/
def ProductsService.handle_order_created (s : Storage) (payload : Notification) : Storage :=
  payload.order.order_details.foldl
    (fun st product => st.decrement_stock product.product_id product.quantity) s

/-- `handle_order_created` instrumented with the trace of
`decrement_stock` calls the loop makes: each iteration appends the
`(product_id, quantity)` pair it passes to the storage. -/
def ProductsService.handle_order_created_traced (s : Storage) (payload : Notification) :
    Storage × List (String × Nat) :=
  payload.order.order_details.foldl
    (fun acc product =>
      (acc.1.decrement_stock product.product_id product.quantity,
       acc.2 ++ [(product.product_id, product.quantity)]))
    (s, [])

/-! ## Orders service (`orders/orders/service.py`) -/

/-- The orders service state: the database (committed orders plus the id the
next commit will assign) and the trace of events dispatched so far. -/
structure OrdersState where
  next_id : Nat
  orders : List Order
  published : List Notification
deriving DecidableEq

/-- `OrdersService.create_order`: builds the order with all its details,
commits it (one atomic state transition), dispatches one `order_created`
event carrying the serialized order, and returns the serialized order. -/
def OrdersService.create_order (st : OrdersState) (order_details : List OrderDetail) :
    Order × OrdersState :=
  let order : Order := { id := st.next_id, order_details := order_details }
  (order,
   { next_id := st.next_id + 1,
     orders := st.orders ++ [order],
     published := st.published ++ [{ order := order }] })

/-- `OrdersService.get_order`: primary-key lookup, `NotFound` when absent. -/
def OrdersService.get_order (st : OrdersState) (order_id : Nat) : Except String Order :=
  match st.orders.find? (fun o => o.id == order_id) with
  | some order => .ok order
  | none => .error ("Order with id " ++ toString order_id ++ " not found")

/-! ## Gateway aggregator (`gateway/gateway/service.py`) -/

/-- Exceptions `gateway._create_order` raises, one constructor per raise
site. `productNotFound` carries the offending id (message
"Product ID ... does not exist"); `productNotInStock` likewise (message
"Product with ID ... is not in stock"); `badRequest` is the
"Order quantity exceeds quantity limit." rejection. -/
inductive GatewayError where
  | productNotFound (product_id : String)
  | productNotInStock (product_id : String)
  | badRequest
deriving DecidableEq

/-- The stock snapshot `_create_order` builds from the single catalog read:
the `valid_product_ids` set and the `product_in_stock` dict. Both are
association structures where a later insertion shadows an earlier one. -/
structure Snapshot where
  valid_product_ids : List String
  product_in_stock : List (String × Int)
deriving DecidableEq

/-- The snapshot-building loop of `gateway._create_order`: one pass over
`all_products`, adding each id to the set and its stock to the dict. -/
def buildSnapshot (all_products : List Product) : Snapshot :=
  all_products.foldl
    (fun snap prod =>
      { valid_product_ids := prod.id :: snap.valid_product_ids,
        product_in_stock := (prod.id, prod.in_stock) :: snap.product_in_stock })
    { valid_product_ids := [], product_in_stock := [] }

/-- `product_in_stock.get(product_id, 0)`. -/
def Snapshot.stockOf (snap : Snapshot) (product_id : String) : Int :=
  (snap.product_in_stock.lookup product_id).getD 0

/-- The body of the gateway validation loop for one line item: the three
checks of `gateway._create_order`, in source order. -/
def GatewayService.checkItem (snap : Snapshot) (item : OrderDetail) : Except GatewayError Unit :=
  if ¬ item.product_id ∈ snap.valid_product_ids then
    .error (.productNotFound item.product_id)
  else if snap.stockOf item.product_id = 0 then
    .error (.productNotInStock item.product_id)
  else if (item.quantity : Int) > snap.stockOf item.product_id then
    .error .badRequest
  else
    .ok ()

/-- The gateway validation loop: items are checked in caller-supplied order
against the one snapshot; the first raise aborts the loop. -/
def GatewayService.validateDetails (snap : Snapshot) : List OrderDetail → Except GatewayError Unit
  | [] => .ok ()
  | item :: rest =>
    match GatewayService.checkItem snap item with
    | .error e => .error e
    | .ok () => GatewayService.validateDetails snap rest

/-- `gateway._create_order` end to end: read the catalog once, build the
snapshot, validate every item, and only then call
`orders.create_order`, returning `result['id']`. A validation failure
returns before the orders service is touched, so the orders state is
unchanged. -/
def GatewayService.create_order (all_products : List Product) (st : OrdersState)
    (order_details : List OrderDetail) : Except GatewayError Nat × OrdersState :=
  let snap := buildSnapshot all_products
  match GatewayService.validateDetails snap order_details with
  | .error e => (.error e, st)
  | .ok () =>
    let (order, st') := OrdersService.create_order st order_details
    (.ok order.id, st')

/-! ## FastAPI aggregator (`gateapi/gateapi/api/routers/order.py`)

Embedded independently of the gateway so that the equivalence of the two
validators is a theorem about two separate definitions. -/

/-- The `HTTPException`s `gateapi._create_order` raises: a 404 for a missing
product (detail "Product with id ... not found") and 400s for zero stock
(detail "Product with ID ... is not in stock") and for excess quantity
(detail "Order quantity exceeds quantity limit."). -/
inductive GateapiError where
  | notFound (product_id : String)
  | notInStock (product_id : String)
  | quantityExceeds
deriving DecidableEq

/-- The snapshot-building loop of `gateapi._create_order`. -/
def buildSnapshotApi (all_products : List Product) : Snapshot :=
  all_products.foldl
    (fun snap prod =>
      { valid_product_ids := prod.id :: snap.valid_product_ids,
        product_in_stock := (prod.id, prod.in_stock) :: snap.product_in_stock })
    { valid_product_ids := [], product_in_stock := [] }

/-- The body of the gateapi validation loop for one line item. -/
def GateapiOrder.checkItem (snap : Snapshot) (item : OrderDetail) : Except GateapiError Unit :=
  if ¬ item.product_id ∈ snap.valid_product_ids then
    .error (.notFound item.product_id)
  else if snap.stockOf item.product_id = 0 then
    .error (.notInStock item.product_id)
  else if (item.quantity : Int) > snap.stockOf item.product_id then
    .error .quantityExceeds
  else
    .ok ()

/-- The gateapi validation loop. -/
def GateapiOrder.validateDetails (snap : Snapshot) : List OrderDetail → Except GateapiError Unit
  | [] => .ok ()
  | item :: rest =>
    match GateapiOrder.checkItem snap item with
    | .error e => .error e
    | .ok () => GateapiOrder.validateDetails snap rest

/-- The reason a line item is rejected, abstracted away from the transport
each aggregator reports it with. -/
inductive RejectReason where
  | productAbsent (product_id : String)
  | stockZero (product_id : String)
  | quantityExceedsStock
deriving DecidableEq

/-- The reason behind each gateway exception. -/
def GatewayError.reason : GatewayError → RejectReason
  | .productNotFound product_id => .productAbsent product_id
  | .productNotInStock product_id => .stockZero product_id
  | .badRequest => .quantityExceedsStock

/-- The reason behind each gateapi `HTTPException`. -/
def GateapiError.reason : GateapiError → RejectReason
  | .notFound product_id => .productAbsent product_id
  | .notInStock product_id => .stockZero product_id
  | .quantityExceeds => .quantityExceedsStock

/-- The outcome of the gateway validation, as accept (`none`) or a
rejection reason. -/
def gatewayOutcome (r : Except GatewayError Unit) : Option RejectReason :=
  match r with
  | .ok () => none
  | .error e => some e.reason

/-- The outcome of the gateapi validation, as accept (`none`) or a
rejection reason. -/
def gateapiOutcome (r : Except GateapiError Unit) : Option RejectReason :=
  match r with
  | .ok () => none
  | .error e => some e.reason

/-! ## Supporting lemmas -/

/-- A clamped decrement keeps every stored stock count non-negative. -/
theorem Storage.decrement_stock_nonneg {s : Storage} (h : ∀ p ∈ s, 0 ≤ p.in_stock)
    (product_id : String) (quantity : Nat) :
    ∀ p ∈ s.decrement_stock product_id quantity, 0 ≤ p.in_stock := by
  intro p hp
  simp only [Storage.decrement_stock, List.mem_map] at hp
  obtain ⟨q, hq, rfl⟩ := hp
  by_cases hid : q.id = product_id
  · simp only [hid, if_pos rfl]
    exact le_max_right _ _
  · simp only [if_neg hid]
    exact h q hq

/-- Folding clamped decrements over a detail list keeps every stored stock
count non-negative. -/
theorem foldl_decrement_nonneg (details : List OrderDetail) :
    ∀ s : Storage, (∀ p ∈ s, 0 ≤ p.in_stock) →
      ∀ p ∈ details.foldl (fun st d => st.decrement_stock d.product_id d.quantity) s,
        0 ≤ p.in_stock := by
  induction details with
  | nil => intro s h; simpa using h
  | cons d rest ih =>
      intro s h
      simp only [List.foldl_cons]
      exact ih _ (Storage.decrement_stock_nonneg h _ _)

/-- Processing any sequence of notifications keeps every stored stock count
non-negative. -/
theorem foldl_handle_nonneg (notifs : List Notification) :
    ∀ s : Storage, (∀ p ∈ s, 0 ≤ p.in_stock) →
      ∀ p ∈ notifs.foldl ProductsService.handle_order_created s, 0 ≤ p.in_stock := by
  induction notifs with
  | nil => intro s h; simpa using h
  | cons n rest ih =>
      intro s h
      simp only [List.foldl_cons]
      exact ih _ (foldl_decrement_nonneg _ _ h)

/-- `decrement_stock` rewrites the looked-up product's stock to the clamped
difference. -/
theorem Storage.get_decrement_stock :
    ∀ (s : Storage) (product_id : String) (quantity : Nat) (p : Product),
      Storage.get s product_id = some p →
      Storage.get (s.decrement_stock product_id quantity) product_id
        = some { p with in_stock := max (p.in_stock - (quantity : Int)) 0 } := by
  intro s product_id quantity
  induction s with
  | nil => intro p h; simp [Storage.get] at h
  | cons q rest ih =>
      intro p h
      by_cases hq : q.id = product_id
      · rw [Storage.get, List.find?_cons_of_pos _ (by simpa using hq)] at h
        cases h
        simp only [Storage.decrement_stock, List.map_cons, if_pos hq]
        rw [Storage.get, List.find?_cons_of_pos _ (by simpa using hq)]
      · rw [Storage.get, List.find?_cons_of_neg _ (by simpa using hq)] at h
        have ihr := ih p h
        simp only [Storage.decrement_stock, List.map_cons, if_neg hq]
        rw [Storage.get, List.find?_cons_of_neg _ (by simpa using hq)]
        exact ihr

/-- The instrumented decrement loop computes the plain loop's storage and
records one call per detail, in payload order. -/
theorem foldl_decrement_traced (details : List OrderDetail) :
    ∀ (s : Storage) (acc : List (String × Nat)),
      details.foldl
          (fun a d => (a.1.decrement_stock d.product_id d.quantity,
                       a.2 ++ [(d.product_id, d.quantity)]))
          (s, acc)
        = (details.foldl (fun st d => st.decrement_stock d.product_id d.quantity) s,
           acc ++ details.map fun d => (d.product_id, d.quantity)) := by
  induction details with
  | nil => simp
  | cons d rest ih =>
      intro s acc
      simp only [List.foldl_cons, List.map_cons, ih]
      simp

/-! ## Claims -/

/-- Claim C1: the `order_created` consumer tracks no processed
notification ids, so delivering the same `StockDecrementNotification`
twice decrements twice. At catalog stock 10 and a notification for 3 units
of `the_odyssey`, one delivery leaves stock 7 while a second delivery of
the same notification leaves stock 4 — not the stock of a single
application, contradicting the required idempotence. -/
theorem C1_duplicate_delivery_not_idempotent :
    ProductsService.handle_order_created
        (ProductsService.handle_order_created [⟨"the_odyssey", 10⟩]
          ⟨⟨1, [⟨"the_odyssey", 3, "99.99"⟩]⟩⟩)
        ⟨⟨1, [⟨"the_odyssey", 3, "99.99"⟩]⟩⟩
      ≠ ProductsService.handle_order_created [⟨"the_odyssey", 10⟩]
          ⟨⟨1, [⟨"the_odyssey", 3, "99.99"⟩]⟩⟩ := by decide

/-- Claim C2: each decrement sets the product's stock to
`max(stock - quantity, 0)` (it is a total clamped update, never an
error), and starting from a storage whose stocks are all non-negative,
every storage reachable by processing any sequence of notifications —
duplicates and reorderings included — has all stocks non-negative. -/
theorem C2_decrement_clamps_and_stock_nonneg
    (s : Storage) (product_id : String) (quantity : Nat) (p : Product)
    (notifs : List Notification)
    (hget : Storage.get s product_id = some p)
    (hinit : ∀ q ∈ s, 0 ≤ q.in_stock) :
    Storage.get (s.decrement_stock product_id quantity) product_id
        = some { p with in_stock := max (p.in_stock - (quantity : Int)) 0 }
    ∧ ∀ q ∈ notifs.foldl ProductsService.handle_order_created s, 0 ≤ q.in_stock :=
  ⟨Storage.get_decrement_stock s product_id quantity p hget,
   foldl_handle_nonneg notifs s hinit⟩

/-- Claim C2 witness: stock 5, decrement by 8 across two duplicate
notifications — the first delivery clamps the stock to 0 and it stays
non-negative. -/
theorem C2_witness :
    Storage.get (Storage.decrement_stock [⟨"the_odyssey", 5⟩] "the_odyssey" 8) "the_odyssey"
        = some ⟨"the_odyssey", max ((5 : Int) - (8 : Nat)) 0⟩
    ∧ ∀ q ∈ [⟨⟨1, [⟨"the_odyssey", 8, "99.99"⟩]⟩⟩,
             ⟨⟨1, [⟨"the_odyssey", 8, "99.99"⟩]⟩⟩].foldl
          ProductsService.handle_order_created [⟨"the_odyssey", 5⟩],
        0 ≤ q.in_stock :=
  C2_decrement_clamps_and_stock_nonneg [⟨"the_odyssey", 5⟩] "the_odyssey" 8
    ⟨"the_odyssey", 5⟩ _ (by decide) (by decide)

/-- Claim C8: the `order_created` consumer issues exactly one
`decrement_stock` call per `(product_id, quantity)` pair of the delivered
notification, in the notification's own detail order, and those calls
produce exactly the storage `handle_order_created` computes. -/
theorem C8_one_decrement_per_detail_in_order (s : Storage) (payload : Notification) :
    ProductsService.handle_order_created_traced s payload
      = (ProductsService.handle_order_created s payload,
         payload.order.order_details.map fun d => (d.product_id, d.quantity)) := by
  unfold ProductsService.handle_order_created_traced ProductsService.handle_order_created
  simpa using foldl_decrement_traced payload.order.order_details s []

/-- Claim C10: `ProductsService.create` raises `ProductExists` and writes
nothing when the id is already stored; a write happens exactly when the
lookup finds nothing, and then it only appends, so no stored product is
ever overwritten or lost. -/
theorem C10_create_never_overwrites (s : Storage) (product : Product) :
    ((Storage.get s product.id).isSome →
        ProductsService.create s product
          = .error (.productExists "Product with this ID already exists"))
    ∧ (Storage.get s product.id = none →
        ProductsService.create s product = .ok (Storage.createProduct s product))
    ∧ (∀ s' : Storage, ProductsService.create s product = .ok s' →
        Storage.get s product.id = none ∧ ∀ q ∈ s, q ∈ s') := by
  refine ⟨?_, ?_, ?_⟩
  · intro h
    unfold ProductsService.create
    cases hg : Storage.get s product.id with
    | none => rw [hg] at h; simp at h
    | some q => rfl
  · intro h
    unfold ProductsService.create
    rw [h]
  · intro s' h
    unfold ProductsService.create at h
    cases hg : Storage.get s product.id with
    | none =>
        rw [hg] at h
        simp only [Except.ok.injEq] at h
        subst h
        exact ⟨rfl, fun q hq => by simp [Storage.createProduct, hq]⟩
    | some q => rw [hg] at h; simp at h

/-- Claim C10 witness: creating `the_odyssey` over a storage that already
holds it raises `ProductExists`. -/
theorem C10_witness :
    ProductsService.create [⟨"the_odyssey", 10⟩] ⟨"the_odyssey", 5⟩
      = .error (.productExists "Product with this ID already exists") :=
  (C10_create_never_overwrites [⟨"the_odyssey", 10⟩] ⟨"the_odyssey", 5⟩).1 (by decide)

/-- Claim C3: the gateway checks each requested detail against the one
snapshot, first for presence (`ProductNotFound`), then for zero stock
(`ProductNotInStock`, whatever the requested quantity, 0 included), then
for `quantity > stock` (the BadRequest quantity-exceeds rejection, which
fires iff the quantity strictly exceeds the snapshot stock); a passing
item hands the loop on to the remaining details unchanged, quantity
exactly equal to the stock passes, and quantity one greater is
rejected. -/
theorem C3_per_item_checks (snap : Snapshot) (item : OrderDetail) (rest : List OrderDetail) :
    (item.product_id ∉ snap.valid_product_ids →
        GatewayService.validateDetails snap (item :: rest)
          = .error (.productNotFound item.product_id))
    ∧ (item.product_id ∈ snap.valid_product_ids → snap.stockOf item.product_id = 0 →
        GatewayService.validateDetails snap (item :: rest)
          = .error (.productNotInStock item.product_id))
    ∧ (item.product_id ∈ snap.valid_product_ids → snap.stockOf item.product_id ≠ 0 →
        (GatewayService.validateDetails snap (item :: rest) = .error .badRequest
            ∨ GatewayService.validateDetails snap (item :: rest)
                = GatewayService.validateDetails snap rest)
        ∧ ((item.quantity : Int) > snap.stockOf item.product_id →
            GatewayService.validateDetails snap (item :: rest) = .error .badRequest)
        ∧ ((item.quantity : Int) ≤ snap.stockOf item.product_id →
            GatewayService.validateDetails snap (item :: rest)
              = GatewayService.validateDetails snap rest))
    ∧ (item.product_id ∈ snap.valid_product_ids → snap.stockOf item.product_id ≠ 0 →
        ((item.quantity : Int) = snap.stockOf item.product_id →
            GatewayService.validateDetails snap [item] = .ok ())
        ∧ ((item.quantity : Int) = snap.stockOf item.product_id + 1 →
            GatewayService.validateDetails snap [item] = .error .badRequest)) := by
  refine ⟨?_, ?_, ?_, ?_⟩
  · intro h
    simp [GatewayService.validateDetails, GatewayService.checkItem, h]
  · intro hmem hzero
    simp [GatewayService.validateDetails, GatewayService.checkItem, hmem, hzero]
  · intro hmem hzero
    by_cases hqty : (item.quantity : Int) > snap.stockOf item.product_id
    · refine ⟨Or.inl ?_, fun _ => ?_, fun hle => absurd hqty (not_lt.mpr hle)⟩ <;>
        simp [GatewayService.validateDetails, GatewayService.checkItem, hmem, hzero, hqty]
    · refine ⟨Or.inr ?_, fun hgt => absurd hgt hqty, fun _ => ?_⟩ <;>
        simp [GatewayService.validateDetails, GatewayService.checkItem, hmem, hzero, hqty]
  · intro hmem hzero
    constructor
    · intro heq
      have hqty : ¬ (item.quantity : Int) > snap.stockOf item.product_id := by omega
      simp [GatewayService.validateDetails, GatewayService.checkItem, hmem, hzero, hqty]
    · intro heq
      have hqty : (item.quantity : Int) > snap.stockOf item.product_id := by omega
      simp [GatewayService.validateDetails, GatewayService.checkItem, hmem, hzero, hqty]

/-- Claim C3 witness: over a snapshot holding `the_odyssey` with stock 3,
a request for an absent product fails with `ProductNotFound`, and a
request for exactly 3 units passes while 4 units are rejected. -/
theorem C3_witness :
    GatewayService.validateDetails (buildSnapshot [⟨"the_odyssey", 3⟩])
        [⟨"the_enigma", 1, "100000.99"⟩]
      = .error (.productNotFound "the_enigma")
    ∧ GatewayService.validateDetails (buildSnapshot [⟨"the_odyssey", 3⟩])
        [⟨"the_odyssey", 3, "99.99"⟩] = .ok ()
    ∧ GatewayService.validateDetails (buildSnapshot [⟨"the_odyssey", 3⟩])
        [⟨"the_odyssey", 4, "99.99"⟩] = .error .badRequest :=
  ⟨(C3_per_item_checks (buildSnapshot [⟨"the_odyssey", 3⟩]) ⟨"the_enigma", 1, "100000.99"⟩ []).1
      (by decide),
   ((C3_per_item_checks (buildSnapshot [⟨"the_odyssey", 3⟩]) ⟨"the_odyssey", 3, "99.99"⟩ []).2.2.2
      (by decide) (by decide)).1 (by decide),
   ((C3_per_item_checks (buildSnapshot [⟨"the_odyssey", 3⟩]) ⟨"the_odyssey", 4, "99.99"⟩ []).2.2.2
      (by decide) (by decide)).2 (by decide)⟩

/-- Claim C4: when validation rejects any line item, the gateway returns
that error with the orders state untouched — no commit, no assigned id,
no published notification. -/
theorem C4_validation_failure_has_no_side_effects (all_products : List Product)
    (st : OrdersState) (details : List OrderDetail) (e : GatewayError)
    (h : GatewayService.validateDetails (buildSnapshot all_products) details = .error e) :
    GatewayService.create_order all_products st details = (.error e, st) := by
  simp [GatewayService.create_order, h]

/-- Claim C4 witness: ordering the absent `the_enigma` fails with
`ProductNotFound` and leaves the empty orders state empty. -/
theorem C4_witness :
    GatewayService.create_order [⟨"the_odyssey", 3⟩] ⟨1, [], []⟩
        [⟨"the_enigma", 1, "100000.99"⟩]
      = (.error (.productNotFound "the_enigma"), ⟨1, [], []⟩) :=
  C4_validation_failure_has_no_side_effects [⟨"the_odyssey", 3⟩] ⟨1, [], []⟩
    [⟨"the_enigma", 1, "100000.99"⟩] (.productNotFound "the_enigma") (by decide)

/-- Claim C5: a successful creation commits the order with all its details
in one state transition, appends exactly one notification carrying the
assigned id and the same details, and hands that id back verbatim. -/
theorem C5_commit_publishes_once_and_returns_id (all_products : List Product)
    (st : OrdersState) (details : List OrderDetail)
    (h : GatewayService.validateDetails (buildSnapshot all_products) details = .ok ()) :
    GatewayService.create_order all_products st details
      = (.ok st.next_id,
         { next_id := st.next_id + 1,
           orders := st.orders ++ [{ id := st.next_id, order_details := details }],
           published := st.published
             ++ [{ order := { id := st.next_id, order_details := details } }] }) := by
  simp [GatewayService.create_order, OrdersService.create_order, h]

/-- Claim C5 witness: a valid one-item order against stock 3 returns id 1
and appends exactly one matching order and one matching notification. -/
theorem C5_witness :
    GatewayService.create_order [⟨"the_odyssey", 3⟩] ⟨1, [], []⟩ [⟨"the_odyssey", 2, "99.99"⟩]
      = (.ok 1,
         { next_id := 2,
           orders := [{ id := 1, order_details := [⟨"the_odyssey", 2, "99.99"⟩] }],
           published := [{ order := { id := 1, order_details := [⟨"the_odyssey", 2, "99.99"⟩] } }] }) :=
  C5_commit_publishes_once_and_returns_id [⟨"the_odyssey", 3⟩] ⟨1, [], []⟩
    [⟨"the_odyssey", 2, "99.99"⟩] (by decide)

/-- Claim C6: each line item is checked against the same undiminished
snapshot, so if every item passes its own check the whole order passes —
even when several items name the same product and their quantities sum
past the snapshot stock. -/
theorem C6_items_checked_against_undiminished_snapshot (snap : Snapshot)
    (details : List OrderDetail)
    (h : ∀ item ∈ details, GatewayService.checkItem snap item = .ok ()) :
    GatewayService.validateDetails snap details = .ok () := by
  induction details with
  | nil => rfl
  | cons item rest ih =>
      have h1 := h item (List.mem_cons_self item rest)
      simp only [GatewayService.validateDetails, h1]
      exact ih fun i hi => h i (List.mem_cons_of_mem _ hi)

/-- Claim C6 witness: two line items of 2 units each for `the_odyssey`
pass validation against snapshot stock 3, though together they ask for 4
units. -/
theorem C6_witness :
    GatewayService.validateDetails (buildSnapshot [⟨"the_odyssey", 3⟩])
        [⟨"the_odyssey", 2, "99.99"⟩, ⟨"the_odyssey", 2, "99.99"⟩] = .ok ()
    ∧ 2 + 2 > 3 :=
  ⟨C6_items_checked_against_undiminished_snapshot (buildSnapshot [⟨"the_odyssey", 3⟩])
      [⟨"the_odyssey", 2, "99.99"⟩, ⟨"the_odyssey", 2, "99.99"⟩] (by decide),
   by decide⟩

/-- Claim C7: after a successful creation the gateway hands back the
assigned id, and `get_order` on that id returns the order with exactly the
submitted details — same count, same sequence, caller-supplied prices
verbatim. The freshness hypothesis states that the ledger has not already
handed out the id it is about to assign. -/
theorem C7_create_then_get_round_trip (all_products : List Product)
    (st : OrdersState) (details : List OrderDetail)
    (hok : GatewayService.validateDetails (buildSnapshot all_products) details = .ok ())
    (hfresh : ∀ o ∈ st.orders, o.id ≠ st.next_id) :
    (GatewayService.create_order all_products st details).1 = .ok st.next_id
    ∧ OrdersService.get_order (GatewayService.create_order all_products st details).2 st.next_id
        = .ok { id := st.next_id, order_details := details } := by
  rw [C5_commit_publishes_once_and_returns_id all_products st details hok]
  refine ⟨rfl, ?_⟩
  unfold OrdersService.get_order
  have hnone : st.orders.find? (fun o => o.id == st.next_id) = none := by
    rw [List.find?_eq_none]
    intro o ho
    simpa using hfresh o ho
  rw [List.find?_append, hnone, Option.none_or,
    List.find?_cons_of_pos _ (by simp)]

/-- Claim C7 witness: creating a two-item order on a fresh ledger and
reading id 1 back returns both details in submitted sequence with their
prices. -/
theorem C7_witness :
    (GatewayService.create_order [⟨"the_odyssey", 3⟩, ⟨"the_enigma", 8⟩] ⟨1, [], []⟩
        [⟨"the_odyssey", 2, "99.99"⟩, ⟨"the_enigma", 1, "5.99"⟩]).1 = .ok 1
    ∧ OrdersService.get_order
        (GatewayService.create_order [⟨"the_odyssey", 3⟩, ⟨"the_enigma", 8⟩] ⟨1, [], []⟩
          [⟨"the_odyssey", 2, "99.99"⟩, ⟨"the_enigma", 1, "5.99"⟩]).2 1
        = .ok { id := 1,
                order_details := [⟨"the_odyssey", 2, "99.99"⟩, ⟨"the_enigma", 1, "5.99"⟩] } :=
  C7_create_then_get_round_trip [⟨"the_odyssey", 3⟩, ⟨"the_enigma", 8⟩] ⟨1, [], []⟩
    [⟨"the_odyssey", 2, "99.99"⟩, ⟨"the_enigma", 1, "5.99"⟩] (by decide) (by decide)

/-- The two aggregators build the snapshot by the same left fold. -/
theorem buildSnapshotApi_eq (all_products : List Product) :
    buildSnapshotApi all_products = buildSnapshot all_products := rfl

/-- A gateway validation outcome is `none` exactly on acceptance. -/
theorem gatewayOutcome_eq_none_iff (r : Except GatewayError Unit) :
    gatewayOutcome r = none ↔ r = .ok () := by
  cases r with
  | ok u => cases u; simp [gatewayOutcome]
  | error e => simp [gatewayOutcome]

/-- A gateapi validation outcome is `none` exactly on acceptance. -/
theorem gateapiOutcome_eq_none_iff (r : Except GateapiError Unit) :
    gateapiOutcome r = none ↔ r = .ok () := by
  cases r with
  | ok u => cases u; simp [gateapiOutcome]
  | error e => simp [gateapiOutcome]

/-- On any one line item, the gateway check and the gateapi check agree:
same acceptance, same rejection reason. -/
theorem checkItem_outcome_eq (snap : Snapshot) (item : OrderDetail) :
    gatewayOutcome (GatewayService.checkItem snap item)
      = gateapiOutcome (GateapiOrder.checkItem snap item) := by
  unfold GatewayService.checkItem GateapiOrder.checkItem
  split_ifs <;> rfl

/-- On any detail list, the gateway loop and the gateapi loop agree:
same acceptance, same rejection reason. -/
theorem validateDetails_outcome_eq (snap : Snapshot) (details : List OrderDetail) :
    gatewayOutcome (GatewayService.validateDetails snap details)
      = gateapiOutcome (GateapiOrder.validateDetails snap details) := by
  induction details with
  | nil => rfl
  | cons item rest ih =>
      have hitem := checkItem_outcome_eq snap item
      simp only [GatewayService.validateDetails, GateapiOrder.validateDetails]
      cases h1 : GatewayService.checkItem snap item with
      | ok u =>
          cases u
          cases h2 : GateapiOrder.checkItem snap item with
          | ok u2 => cases u2; exact ih
          | error e2 => rw [h1, h2] at hitem; simp [gatewayOutcome, gateapiOutcome] at hitem
      | error e =>
          cases h2 : GateapiOrder.checkItem snap item with
          | ok u2 => cases u2; rw [h1, h2] at hitem; simp [gatewayOutcome, gateapiOutcome] at hitem
          | error e2 =>
              rw [h1, h2] at hitem
              simpa [gatewayOutcome, gateapiOutcome] using hitem

/-- Claim C9: on every catalog and every detail list, the nameko gateway
and the FastAPI gateapi validators are equivalent — they accept exactly
the same inputs, and on rejection they report the same reason for the
same product. -/
theorem C9_gateway_gateapi_equivalent (all_products : List Product)
    (details : List OrderDetail) :
    gatewayOutcome (GatewayService.validateDetails (buildSnapshot all_products) details)
      = gateapiOutcome (GateapiOrder.validateDetails (buildSnapshotApi all_products) details)
    ∧ (GatewayService.validateDetails (buildSnapshot all_products) details = .ok ()
        ↔ GateapiOrder.validateDetails (buildSnapshotApi all_products) details = .ok ()) := by
  rw [buildSnapshotApi_eq]
  refine ⟨validateDetails_outcome_eq _ _, ?_⟩
  rw [← gatewayOutcome_eq_none_iff, ← gateapiOutcome_eq_none_iff,
    validateDetails_outcome_eq]

/-- Claim C9 witness: both validators reject ordering the absent
`the_enigma` with the same product-absent reason. -/
theorem C9_witness :
    gatewayOutcome (GatewayService.validateDetails (buildSnapshot [⟨"the_odyssey", 3⟩])
        [⟨"the_enigma", 1, "100000.99"⟩])
      = gateapiOutcome (GateapiOrder.validateDetails (buildSnapshotApi [⟨"the_odyssey", 3⟩])
        [⟨"the_enigma", 1, "100000.99"⟩]) :=
  (C9_gateway_gateapi_equivalent [⟨"the_odyssey", 3⟩] [⟨"the_enigma", 1, "100000.99"⟩]).1

end NamekoDevex
